import Mathlib

/-!
Verification of the entity-store and annotation-ledger logic of the Dash NER
labeler repository.

The in-browser entity store lives in `working_demo.py`:
the clientside add callback (lines 208-279) and the `remove_entity`
pattern-matching callback (lines 378-419).  The persistence layer lives in
`bigquery_integration.py` (`upload_annotations`, `load_existing_annotations`,
`get_annotation_history`, `_update_text_status`, `get_user_statistics`), the
statistics view in `multi_user_demo.py` (`update_statistics`) and
`bigquery_demo.py` (`update_statistics_dashboard`, `handle_export_actions`).

JavaScript strings are modelled as Lean `String`, JS numbers holding
`Date.now() + Math.random()` as `ℚ` (an exact model of the float sum:
a `Nat` millisecond clock value plus a fractional random draw), and the SQL
`ORDER BY` of a BigQuery query as a stable insertion sort on the queried rows.
-/

/-- `selection.toString().trim()` from the clientside add callback:
strip leading and trailing whitespace (structural model of JS `trim`). -/
def jsTrim (s : String) : String :=
  ⟨((s.data.dropWhile Char.isWhitespace).reverse.dropWhile Char.isWhitespace).reverse⟩

/-- One entity of the `entities-store` data list, as built by the clientside
add callback in `working_demo.py` (lines 252-259):
`{id, text, label, start, end}`. -/
structure Entity where
  id : ℚ
  text : String
  label : String
  start : Nat
  «end» : Nat
deriving DecidableEq, Repr

/-- The `label_map` object of the clientside add callback
(`working_demo.py` lines 223-228); an unknown button id yields no label. -/
def label_map : String → Option String
  | "btn-person" => some "PERSON"
  | "btn-org" => some "ORGANIZATION"
  | "btn-loc" => some "LOCATION"
  | "btn-misc" => some "MISCELLANEOUS"
  | _ => none

/-- The browser selection as read by the clientside add callback:
`selection.rangeCount`, the selected string, and the character offset of the
range start inside the text container (`working_demo.py` lines 235-250). -/
structure Selection where
  rangeCount : Nat
  raw : String
  start : Nat
deriving DecidableEq, Repr

/-- The `newEntity` object of `working_demo.py` lines 253-259: the id is the
caller-computed `Date.now() + Math.random()`, `text` is the trimmed
selection, and `end = start + selectedText.length`. -/
def mkNewEntity (id : ℚ) (label : String) (sel : Selection) : Entity :=
  { id := id
    text := jsTrim sel.raw
    label := label
    start := sel.start
    «end» := sel.start + (jsTrim sel.raw).length }

/-- The clientside add callback of `working_demo.py` (lines 208-279).
Returns the new `entities-store` data and the `selection-info` message.
`triggered` models `ctx.triggered.length`, `now` and `rand` the values read
from `Date.now()` and `Math.random()` for this invocation. -/
def addCallback (triggered : Bool) (button_id : String) (sel : Selection)
    (now : Nat) (rand : ℚ) (current_entities : List Entity) :
    List Entity × String :=
  if !triggered then
    (current_entities, "Select some text and click a label button")
  else
    match label_map button_id with
    | none => (current_entities, "No label selected")
    | some label =>
      if sel.rangeCount = 0 ∨ jsTrim sel.raw = "" then
        (current_entities, "No text selected")
      else
        let newEntity := mkNewEntity ((now : ℚ) + rand) label sel
        (current_entities ++ [newEntity],
          "Labeled \"" ++ jsTrim sel.raw ++ "\" as " ++ label)

/-- The span `(start, end)` an accepted selection turns into. -/
def entitySpan (sel : Selection) : Nat × Nat :=
  (sel.start, sel.start + (jsTrim sel.raw).length)

/-- Two half-open character spans overlap. -/
def spansOverlap (a b : Nat × Nat) : Prop :=
  a.1 < b.2 ∧ b.1 < a.2

instance (a b : Nat × Nat) : Decidable (spansOverlap a b) :=
  inferInstanceAs (Decidable (_ ∧ _))

/-- The triggering input of the `remove_entity` callback
(`working_demo.py` lines 392-409): the `n_clicks` value of the triggered
prop, and the `"index"` value the regex extracts from its `prop_id`
(`none` when the regex does not match). -/
structure Triggered where
  value : Option Nat
  index : Option ℚ
deriving DecidableEq, Repr

/-- `remove_entity` of `working_demo.py` (lines 378-419): return the entity
list unchanged unless a remove button was actually clicked, then filter out
every entity whose `id` equals the extracted index. -/
def remove_entity (triggered : List Triggered)
    (n_clicks_list : List (Option Nat)) (entities : List Entity) :
    List Entity :=
  match triggered with
  | [] => entities
  | t :: _ =>
    if !(n_clicks_list.any fun n => n.getD 0 != 0) then entities
    else if t.value = none ∨ t.value = some 0 then entities
    else
      match t.index with
      | some entity_id => entities.filter fun e => e.id != entity_id
      | none => entities

/-- Modelled from the spec: one HistoryEntry of the Annotation Ledger
(spec section 3). The ledger-maintaining code (the NERLabeler React
component behind `annotationHistory`) is not under `src/`; only its Python
wrapper and its callers are, so the entry carries the action, a value copy
of the entity, and the acting username, per the spec's record shape. -/
structure HistoryEntry where
  action : String
  entity : Entity
  username : String
deriving DecidableEq, Repr

/-- Modelled from the spec: the joint state of one Entity Store (the
`entities` list of `working_demo.py`) and the Annotation Ledger
(`annotationHistory`). -/
structure SessionState where
  entities : List Entity
  history : List HistoryEntry
deriving DecidableEq, Repr

/-- Modelled from the spec: a successful `add` — the entity list is extended
exactly as the clientside add callback extends it (append of `mkNewEntity`),
and an `add` HistoryEntry carrying a copy of the created entity is appended
to the ledger (spec section 4.1 side effect; the appending component is not
under `src/`). -/
def session_add (id : ℚ) (label : String) (sel : Selection)
    (username : String) (st : SessionState) : SessionState :=
  let e := mkNewEntity id label sel
  { entities := st.entities ++ [e]
    history := st.history ++ [⟨"add", e, username⟩] }

/-- Modelled from the spec: `remove` — the entity list is filtered exactly as
`remove_entity` of `working_demo.py` filters it, and when the id is present a
`remove` HistoryEntry carrying the entity as it existed at removal time is
appended (spec section 4.2; no event when the id is absent). -/
def session_remove (entity_id : ℚ) (username : String) (st : SessionState) :
    SessionState :=
  match st.entities.find? (fun e => e.id == entity_id) with
  | some e =>
    { entities := st.entities.filter fun x => x.id != entity_id
      history := st.history ++ [⟨"remove", e, username⟩] }
  | none => st

/-- Error kind of the spec's `remove` contract (spec section 7). -/
inductive RemoveError where
  | notFound
deriving DecidableEq, Repr

/-- Modelled from the spec's words, for comparison with the code's
`remove_entity`: `remove` on an id absent from the active set fails with
`NotFoundError` and leaves the store unchanged; on a present id it removes
the matching entities. -/
def remove_spec (entity_id : ℚ) (entities : List Entity) :
    Except RemoveError (List Entity) :=
  if entities.any (fun e => e.id == entity_id) then
    Except.ok (entities.filter fun e => e.id != entity_id)
  else
    Except.error RemoveError.notFound

/-- The per-user per-action counting loop of `update_statistics`
(`multi_user_demo.py` lines 139-144) and `update_statistics_dashboard`
(`bigquery_demo.py` lines 475-480): the number of history entries whose
`username` and `action` match. -/
def action_count (history : List HistoryEntry) (user action : String) : Nat :=
  (history.filter fun h => h.username == user && h.action == action).length

/-- A user's total action count, as summed for the most-active-user card
(`bigquery_demo.py` line 521: `sum(user_activity[k].values())` over the
`add` and `remove` counters). -/
def user_total_actions (history : List HistoryEntry) (user : String) : Nat :=
  action_count history user "add" + action_count history user "remove"

/-- One row of the BigQuery `annotations` table
(`bigquery_integration.py` lines 111-131), restricted to the fields the
queries under proof read. -/
structure AnnotationRow where
  annotation_id : String
  text_id : String
  entity_text : String
  entity_label : String
  start_position : Nat
  end_position : Nat
  user_id : String
  username : String
  is_active : Bool
deriving DecidableEq, Repr

/-- One element of the list returned by `load_existing_annotations`
(`bigquery_integration.py` lines 371-384): the row with its columns renamed
to the entity field names. -/
structure LoadedAnnotation where
  id : String
  text : String
  label : String
  start : Nat
  «end» : Nat
  user_id : String
  username : String
deriving DecidableEq, Repr

/-- `load_existing_annotations` of `bigquery_integration.py` (lines 334-391):
`WHERE text_id = @text_id AND is_active = true ORDER BY start_position`,
then each row is repackaged as an annotation dictionary. The `ORDER BY` is
modelled as a stable sort of the matching rows by `start_position`. -/
def load_existing_annotations (rows : List AnnotationRow) (text_id : String) :
    List LoadedAnnotation :=
  ((rows.filter fun r => r.text_id == text_id && r.is_active).insertionSort
      (fun a b => a.start_position ≤ b.start_position)).map
    fun r =>
      { id := r.annotation_id
        text := r.entity_text
        label := r.entity_label
        start := r.start_position
        «end» := r.end_position
        user_id := r.user_id
        username := r.username }

/-- One row of the BigQuery `annotation_history` table
(`bigquery_integration.py` lines 133-150), restricted to the fields read by
`get_annotation_history`. The timestamp is a millisecond clock value. -/
structure HistoryRow where
  history_id : String
  text_id : String
  action : String
  user_id : String
  username : String
  timestamp : Nat
deriving DecidableEq, Repr

/-- `get_annotation_history` of `bigquery_integration.py` (lines 393-440):
optional `text_id` and `user_id` filters, `ORDER BY timestamp DESC LIMIT
1000`. The `ORDER BY ... DESC` is modelled as a stable sort by descending
timestamp. -/
def get_annotation_history (rows : List HistoryRow)
    (text_id user_id : Option String) : List HistoryRow :=
  (((rows.filter fun r =>
        (match text_id with | some t => r.text_id == t | none => true) &&
        (match user_id with | some u => r.user_id == u | none => true)).insertionSort
      (fun a b => b.timestamp ≤ a.timestamp)).take 1000)

/-- The history truncation of `handle_export_actions`
(`bigquery_demo.py` line 597): `(history or [])[-10:]`, the last ten entries
of the in-memory history in their stored order. -/
def show_last_ten (history : List HistoryRow) : List HistoryRow :=
  history.drop (history.length - 10)

/-- Outcome of `upload_annotations`: the returned boolean and the list of
`(text_id, status)` updates issued through `_update_text_status`
(`bigquery_integration.py` lines 442-462). -/
structure UploadOutcome where
  success : Bool
  statusUpdates : List (String × String)
deriving DecidableEq, Repr

/-- The annotation record built for one entity by `upload_annotations`
(`bigquery_integration.py` lines 271-285). -/
def mkAnnotationRecord (text_id user_id username : String) (e : Entity) :
    AnnotationRow :=
  { annotation_id := text_id ++ "_" ++ toString e.id
    text_id := text_id
    entity_text := e.text
    entity_label := e.label
    start_position := e.start
    end_position := e.«end»
    user_id := user_id
    username := username
    is_active := true }

/-- The history record built for one entity by `upload_annotations`
(`bigquery_integration.py` lines 288-301); the action is always `create`. -/
def mkHistoryRecord (text_id user_id username : String)
    (timestamp : Nat) (e : Entity) : HistoryRow :=
  { history_id := text_id ++ "_" ++ toString e.id
    text_id := text_id
    action := "create"
    user_id := user_id
    username := username
    timestamp := timestamp }

/-- `upload_annotations` of `bigquery_integration.py` (lines 241-332):
build one annotation record and one history record per entity; if the
annotation insert reports errors return `False`; else if the history insert
reports errors return `False`; otherwise update the text status to
`completed` and return `True`. The two `insert_rows_json` error lists are
inputs (they are produced by the BigQuery client), and an insert is only
attempted — so its errors only observed — when its record list is
non-empty. -/
def upload_annotations (text_id : String) (entities : List Entity)
    (user_id username : String) (timestamp : Nat)
    (annot_errors hist_errors : List String) : UploadOutcome :=
  let annotation_records := entities.map (mkAnnotationRecord text_id user_id username)
  let history_records := entities.map (mkHistoryRecord text_id user_id username timestamp)
  if !annotation_records.isEmpty && !annot_errors.isEmpty then
    { success := false, statusUpdates := [] }
  else if !history_records.isEmpty && !hist_errors.isEmpty then
    { success := false, statusUpdates := [] }
  else
    { success := true, statusUpdates := [(text_id, "completed")] }

/-! ## Helper lemmas -/

/-- A successful pass through the clientside add callback appends exactly
one new entity and reports the label message. -/
lemma addCallback_success (current : List Entity) (btn lab : String)
    (sel : Selection) (now : Nat) (rand : ℚ)
    (hbtn : label_map btn = some lab)
    (hrange : sel.rangeCount ≠ 0) (htrim : jsTrim sel.raw ≠ "") :
    addCallback true btn sel now rand current =
      (current ++ [mkNewEntity ((now : ℚ) + rand) lab sel],
       "Labeled \"" ++ jsTrim sel.raw ++ "\" as " ++ lab) := by
  unfold addCallback
  rw [hbtn]
  simp [hrange, htrim]

/-- An empty (all-whitespace) selection is rejected with the
`No text selected` message and leaves the store unchanged. -/
lemma addCallback_no_text (current : List Entity) (btn lab : String)
    (sel : Selection) (now : Nat) (rand : ℚ)
    (hbtn : label_map btn = some lab) (htrim : jsTrim sel.raw = "") :
    addCallback true btn sel now rand current =
      (current, "No text selected") := by
  unfold addCallback
  rw [hbtn]
  simp [htrim]

/-- When a remove button with a parseable id was genuinely clicked,
`remove_entity` filters the entity list by that id. -/
lemma remove_entity_filter (t : Triggered) (rest : List Triggered)
    (ncl : List (Option Nat)) (entities : List Entity) (eid : ℚ)
    (hidx : t.index = some eid)
    (hval : ¬(t.value = none ∨ t.value = some 0))
    (hany : (ncl.any fun n => n.getD 0 != 0) = true) :
    remove_entity (t :: rest) ncl entities =
      entities.filter fun e => e.id != eid := by
  simp only [remove_entity]
  rw [hidx]
  simp [hany, hval]

/-- Filtering by a never-occurring id keeps the list intact. -/
lemma filter_id_ne_absent (entities : List Entity) (eid : ℚ)
    (h : ∀ e ∈ entities, e.id ≠ eid) :
    (entities.filter fun e => e.id != eid) = entities :=
  List.filter_eq_self.mpr fun a ha => by
    simpa [bne_iff_ne] using h a ha

/-- `remove_entity` never changes the list when the parsed id occurs
nowhere, whatever the trigger guards decide. -/
lemma remove_entity_absent (t : Triggered) (rest : List Triggered)
    (ncl : List (Option Nat)) (entities : List Entity) (eid : ℚ)
    (hidx : t.index = some eid) (h : ∀ e ∈ entities, e.id ≠ eid) :
    remove_entity (t :: rest) ncl entities = entities := by
  simp only [remove_entity]
  rw [hidx]
  split
  · rfl
  · split
    · rfl
    · exact filter_id_ne_absent entities eid h

/-- Stable insertion sort by an ascending natural key is pairwise sorted. -/
lemma insertionSort_sorted_le {α : Type} (k : α → Nat) (l : List α) :
    (l.insertionSort fun a b => k a ≤ k b).Pairwise fun a b => k a ≤ k b := by
  haveI : IsTotal α fun a b => k a ≤ k b := ⟨fun a b => Nat.le_total _ _⟩
  haveI : IsTrans α fun a b => k a ≤ k b := ⟨fun a b c => Nat.le_trans⟩
  exact List.sorted_insertionSort _ l

/-- Stable insertion sort by a descending natural key is pairwise sorted. -/
lemma insertionSort_sorted_ge {α : Type} (k : α → Nat) (l : List α) :
    (l.insertionSort fun a b => k b ≤ k a).Pairwise fun a b => k b ≤ k a := by
  haveI : IsTotal α fun a b => k b ≤ k a := ⟨fun a b => Nat.le_total _ _⟩
  haveI : IsTrans α fun a b => k b ≤ k a :=
    ⟨fun a b c hab hbc => Nat.le_trans hbc hab⟩
  exact List.sorted_insertionSort _ l

/-- Mapping preserves list emptiness. -/
lemma map_isEmpty {α β : Type} (f : α → β) (l : List α) :
    (l.map f).isEmpty = l.isEmpty := by
  cases l <;> rfl

/-! ## Claim C1 — overlapping spans are accepted -/

/-- C1: for every current entity list and any two overlapping spans, the add
callback accepts both in sequence — the final store is the original list with
both new entities appended, and both appear in it; no overlap or duplicate
check ever rejects an add. -/
theorem C1_overlapping_adds_accepted
    (current : List Entity) (b1 b2 lab1 lab2 : String) (sel1 sel2 : Selection)
    (n1 n2 : Nat) (r1 r2 : ℚ)
    (hb1 : label_map b1 = some lab1) (hb2 : label_map b2 = some lab2)
    (hr1 : sel1.rangeCount ≠ 0) (ht1 : jsTrim sel1.raw ≠ "")
    (hr2 : sel2.rangeCount ≠ 0) (ht2 : jsTrim sel2.raw ≠ "")
    (_hover : spansOverlap (entitySpan sel1) (entitySpan sel2)) :
    (addCallback true b2 sel2 n2 r2
        (addCallback true b1 sel1 n1 r1 current).1).1 =
      current ++ [mkNewEntity ((n1 : ℚ) + r1) lab1 sel1,
                  mkNewEntity ((n2 : ℚ) + r2) lab2 sel2] ∧
    mkNewEntity ((n1 : ℚ) + r1) lab1 sel1 ∈
      (addCallback true b2 sel2 n2 r2
        (addCallback true b1 sel1 n1 r1 current).1).1 ∧
    mkNewEntity ((n2 : ℚ) + r2) lab2 sel2 ∈
      (addCallback true b2 sel2 n2 r2
        (addCallback true b1 sel1 n1 r1 current).1).1 := by
  rw [addCallback_success current b1 lab1 sel1 n1 r1 hb1 hr1 ht1]
  rw [addCallback_success _ b2 lab2 sel2 n2 r2 hb2 hr2 ht2]
  refine ⟨by simp, by simp, by simp⟩

/-- Witness for C1: spans (0,5) and (2,8) on the same content — both adds
succeed and both entities are in the final store. -/
theorem C1_witness :
    label_map "btn-person" = some "PERSON" ∧
    label_map "btn-loc" = some "LOCATION" ∧
    jsTrim "abcde" ≠ "" ∧ jsTrim "cdefgh" ≠ "" ∧
    spansOverlap (entitySpan ⟨1, "abcde", 0⟩) (entitySpan ⟨1, "cdefgh", 2⟩) ∧
    (addCallback true "btn-loc" ⟨1, "cdefgh", 2⟩ 2 0
        (addCallback true "btn-person" ⟨1, "abcde", 0⟩ 1 0 []).1).1 =
      [] ++ [mkNewEntity ((1 : ℕ) + (0 : ℚ)) "PERSON" ⟨1, "abcde", 0⟩,
             mkNewEntity ((2 : ℕ) + (0 : ℚ)) "LOCATION" ⟨1, "cdefgh", 2⟩] :=
  ⟨rfl, rfl, by decide, by decide, by decide,
   (C1_overlapping_adds_accepted [] "btn-person" "btn-loc" "PERSON" "LOCATION"
      ⟨1, "abcde", 0⟩ ⟨1, "cdefgh", 2⟩ 1 2 0 0 rfl rfl (by decide) (by decide)
      (by decide) (by decide) (by decide)).1⟩

/-! ## Claim C2 — ordering of the current entity list -/

/-- The store contents after inserting spans (10,15) and then (0,5) through
the add callback. -/
def c2_entities : List Entity :=
  (addCallback true "btn-person" ⟨1, "bbbbb", 0⟩ 2 0
    (addCallback true "btn-person" ⟨1, "aaaaa", 10⟩ 1 0 []).1).1

/-- C2 counterexample: inserting spans (10,15) then (0,5) leaves the current
entity list in insertion order [(10,15), (0,5)], not sorted by start — the
claimed start-ascending order of `currentEntities()` fails on the code. -/
theorem C2_counterexample_insertion_order :
    c2_entities.map (fun e => e.start) = [10, 0] ∧
    ¬ (c2_entities.map fun e => e.start).Pairwise (fun a b => a ≤ b) := by
  have h : c2_entities.map (fun e => e.start) = [10, 0] := rfl
  exact ⟨h, by rw [h]; decide⟩

/-- C2 amended: the in-browser store preserves insertion order (each
successful add appends at the end); the start-ascending ordering holds only
on the persistence load path, where `load_existing_annotations` returns the
active rows of a text sorted by `start_position`. -/
theorem C2_amended_ordering :
    (∀ (current : List Entity) (btn lab : String) (sel : Selection)
       (now : Nat) (rand : ℚ),
       label_map btn = some lab → sel.rangeCount ≠ 0 → jsTrim sel.raw ≠ "" →
       (addCallback true btn sel now rand current).1 =
         current ++ [mkNewEntity ((now : ℚ) + rand) lab sel]) ∧
    (∀ (rows : List AnnotationRow) (tid : String),
       ((load_existing_annotations rows tid).map fun a => a.start).Pairwise
         (fun a b => a ≤ b)) := by
  constructor
  · intro current btn lab sel now rand hbtn hr ht
    rw [addCallback_success current btn lab sel now rand hbtn hr ht]
  · intro rows tid
    unfold load_existing_annotations
    rw [List.pairwise_map, List.pairwise_map]
    exact insertionSort_sorted_le (fun r : AnnotationRow => r.start_position) _

/-- A sample `annotations` table. -/
def c2_rows : List AnnotationRow :=
  [⟨"a1", "t1", "Cupertino", "LOCATION", 20, 29, "u1", "alice", true⟩,
   ⟨"a2", "t1", "Tim Cook", "PERSON", 0, 8, "u2", "bob", true⟩,
   ⟨"a3", "t2", "Apple", "ORGANIZATION", 5, 10, "u1", "alice", true⟩]

/-- Witness for C2 (amended): a concrete add appends at the end, and a
concrete unsorted annotations table is returned sorted by start. -/
theorem C2_witness :
    label_map "btn-person" = some "PERSON" ∧ jsTrim "abcde" ≠ "" ∧
    (addCallback true "btn-person" ⟨1, "abcde", 0⟩ 7 0 []).1 =
      [] ++ [mkNewEntity ((7 : ℕ) + (0 : ℚ)) "PERSON" ⟨1, "abcde", 0⟩] ∧
    ((load_existing_annotations c2_rows "t1").map fun a => a.start).Pairwise
      (fun a b => a ≤ b) :=
  ⟨rfl, by decide,
   C2_amended_ordering.1 [] "btn-person" "PERSON" ⟨1, "abcde", 0⟩ 7 0 rfl
     (by decide) (by decide),
   C2_amended_ordering.2 c2_rows "t1"⟩

/-! ## Claim C3 — validation of malformed spans -/

/-- The add callback run against content `"abc"` (length 3) with a selection
whose span is (10, 14), entirely out of bounds. -/
def c3_result : List Entity × String :=
  addCallback true "btn-person" ⟨1, "xyzw", 10⟩ 1 0 []

/-- C3 counterexample: with content `"abc"` (length 3), an add whose span is
(10,14) — start beyond the content, end past its length — succeeds: the
store gains the entity and the callback reports a success message. No
bounds check against the content exists (the callback never reads the
content), and no ValidationError is raised. -/
theorem C3_counterexample_no_bounds_check :
    c3_result.1.map (fun e => (e.start, e.«end»)) = [(10, 14)] ∧
    "abc".length = 3 ∧
    c3_result.2 = "Labeled \"xyzw\" as PERSON" :=
  ⟨rfl, rfl, rfl⟩

/-- C3 amended: a zero-length span can only arise as an empty (or
all-whitespace) selection, which the callback rejects with the message
`No text selected`, leaving the store unchanged — a signalled rejection, but
not a `ValidationError`; spans violating `start >= 0` cannot be produced and
`end > length(content)` is not checked at all: any non-empty selection is
accepted regardless of the content's length. -/
theorem C3_amended_validation
    (current : List Entity) (btn lab : String) (sel : Selection)
    (now : Nat) (rand : ℚ) (hbtn : label_map btn = some lab) :
    (jsTrim sel.raw = "" →
      addCallback true btn sel now rand current =
        (current, "No text selected")) ∧
    (sel.rangeCount ≠ 0 → jsTrim sel.raw ≠ "" →
      (addCallback true btn sel now rand current).1 =
        current ++ [mkNewEntity ((now : ℚ) + rand) lab sel]) := by
  constructor
  · intro htrim
    exact addCallback_no_text current btn lab sel now rand hbtn htrim
  · intro hr ht
    rw [addCallback_success current btn lab sel now rand hbtn hr ht]

/-- An arbitrary pre-existing store entry used by the C3 witness. -/
def c3_ent : Entity := ⟨5, "ab", "PERSON", 0, 2⟩

/-- Witness for C3 (amended): an all-whitespace selection (zero-length span)
is rejected and leaves a non-empty store untouched, while an out-of-bounds
non-empty selection is appended. -/
theorem C3_witness :
    jsTrim "   " = "" ∧
    addCallback true "btn-person" ⟨1, "   ", 0⟩ 3 0 [c3_ent] =
      ([c3_ent], "No text selected") ∧
    jsTrim "xyzw" ≠ "" ∧
    (addCallback true "btn-person" ⟨1, "xyzw", 10⟩ 1 0 [c3_ent]).1 =
      [c3_ent] ++ [mkNewEntity ((1 : ℕ) + (0 : ℚ)) "PERSON" ⟨1, "xyzw", 10⟩] :=
  ⟨by decide,
   (C3_amended_validation [c3_ent] "btn-person" "PERSON" ⟨1, "   ", 0⟩ 3 0
      rfl).1 (by decide),
   by decide,
   (C3_amended_validation [c3_ent] "btn-person" "PERSON" ⟨1, "xyzw", 10⟩ 1 0
      rfl).2 (by decide) (by decide)⟩

/-! ## Claim C4 — remove on a nonexistent id -/

/-- A store entry whose id (5) differs from the removed id (99). -/
def c4_ent : Entity := ⟨5, "ab", "PERSON", 0, 2⟩

/-- C4 counterexample: removing the absent id 99 from the store `[c4_ent]`
returns the unchanged list through the callback's only output — there is no
error channel and no NotFoundError in the code, so the failure the claim
requires is never signalled; the spec-modelled `remove_spec` would report
`notFound` at the same input. -/
theorem C4_counterexample_silent_noop :
    remove_entity [⟨some 1, some 99⟩] [some 1] [c4_ent] = [c4_ent] ∧
    remove_spec 99 [c4_ent] = Except.error RemoveError.notFound :=
  ⟨by decide, rfl⟩

/-- C4 amended: `remove` with an id absent from the active set (including an
already-removed id) is a silent no-op — the callback returns the entity list
unchanged with no error signalled, and the spec-modelled ledger state is
also unchanged (no history entry is emitted). -/
theorem C4_amended_remove_absent
    (t : Triggered) (rest : List Triggered) (ncl : List (Option Nat))
    (entities : List Entity) (eid : ℚ) (hist : List HistoryEntry) (u : String)
    (hidx : t.index = some eid) (habs : ∀ e ∈ entities, e.id ≠ eid) :
    remove_entity (t :: rest) ncl entities = entities ∧
    session_remove eid u ⟨entities, hist⟩ = ⟨entities, hist⟩ := by
  refine ⟨remove_entity_absent t rest ncl entities eid hidx habs, ?_⟩
  unfold session_remove
  have hfind : entities.find? (fun e => e.id == eid) = none :=
    List.find?_eq_none.mpr fun a ha => by
      simpa [beq_iff_eq] using habs a ha
  simp [hfind]

/-- Witness for C4 (amended): the double-removal shape — id 99 is absent from
`[c4_ent]`, and both the callback and the spec-modelled session leave
everything unchanged. -/
theorem C4_witness :
    (⟨some 1, some 99⟩ : Triggered).index = some 99 ∧
    (∀ e ∈ [c4_ent], e.id ≠ (99 : ℚ)) ∧
    remove_entity [⟨some 1, some 99⟩] [some 1] [c4_ent] = [c4_ent] ∧
    session_remove 99 "alice" ⟨[c4_ent], []⟩ = ⟨[c4_ent], []⟩ :=
  ⟨rfl, by decide,
   (C4_amended_remove_absent ⟨some 1, some 99⟩ [] [some 1] [c4_ent] 99 []
      "alice" rfl (by decide)).1,
   (C4_amended_remove_absent ⟨some 1, some 99⟩ [] [some 1] [c4_ent] 99 []
      "alice" rfl (by decide)).2⟩

/-! ## Claim C5 — add then remove restores the store but extends the ledger -/

/-- C5: for every store state, removing the id returned by a just-performed
add restores the entity list to its pre-add value, while the ledger gains
exactly two new entries — the add entry followed by the remove entry; the
removal never erases history. Requires the freshly generated id not to
collide with an existing one (see C6 for why that can fail). -/
theorem C5_add_remove_inverse_ledger
    (st : SessionState) (id : ℚ) (label : String) (sel : Selection)
    (u1 u2 : String) (hfresh : ∀ e ∈ st.entities, e.id ≠ id) :
    session_remove id u2 (session_add id label sel u1 st) =
      ⟨st.entities,
       st.history ++ [⟨"add", mkNewEntity id label sel, u1⟩,
                      ⟨"remove", mkNewEntity id label sel, u2⟩]⟩ := by
  unfold session_add session_remove
  have hfind : (st.entities ++ [mkNewEntity id label sel]).find?
      (fun e => e.id == id) = some (mkNewEntity id label sel) := by
    rw [List.find?_append]
    have h1 : st.entities.find? (fun e => e.id == id) = none :=
      List.find?_eq_none.mpr fun a ha => by
        simpa [beq_iff_eq] using hfresh a ha
    rw [h1]
    simp [List.find?, mkNewEntity]
  simp only [hfind]
  have hfilter : ((st.entities ++ [mkNewEntity id label sel]).filter
      fun x => x.id != id) = st.entities := by
    rw [List.filter_append, filter_id_ne_absent st.entities id hfresh]
    simp [mkNewEntity]
  rw [hfilter]
  simp

/-- A pre-existing store entry with id 5 used by the C5 witness. -/
def c5_ent : Entity := ⟨5, "x", "PERSON", 0, 1⟩

/-- Witness for C5: a concrete add (fresh id 1) followed by the remove of
that id restores the store `[c5_ent]` and appends exactly the add and remove
entries to the ledger. -/
theorem C5_witness :
    (∀ e ∈ [c5_ent], e.id ≠ (1 : ℚ)) ∧
    session_remove 1 "bob" (session_add 1 "PERSON" ⟨1, "ab", 0⟩ "alice"
        ⟨[c5_ent], []⟩) =
      ⟨[c5_ent], [⟨"add", mkNewEntity 1 "PERSON" ⟨1, "ab", 0⟩, "alice"⟩,
                  ⟨"remove", mkNewEntity 1 "PERSON" ⟨1, "ab", 0⟩, "bob"⟩]⟩ :=
  ⟨by decide,
   C5_add_remove_inverse_ledger ⟨[c5_ent], []⟩ 1 "PERSON" ⟨1, "ab", 0⟩
     "alice" "bob" (by decide)⟩

/-! ## Claim C6 — id uniqueness across a store's lifetime -/

/-- Two successive adds performed in the same millisecond
(`Date.now() = 1000`) with equal `Math.random()` draws (1/2). -/
def c6_entities : List Entity :=
  (addCallback true "btn-org" ⟨1, "cd", 2⟩ 1000 (1/2)
    (addCallback true "btn-person" ⟨1, "ab", 0⟩ 1000 (1/2) []).1).1

/-- C6: the generated id is `Date.now() + Math.random()`, which the code
comments call a unique ID, but two adds in the same millisecond with equal
random draws produce two distinct entities carrying the same id — ids can be
reused, contradicting the claimed lifetime uniqueness. -/
theorem C6_id_collision :
    c6_entities.map (fun e => e.id) =
      [((1000 : ℕ) : ℚ) + 1/2, ((1000 : ℕ) : ℚ) + 1/2] ∧
    c6_entities.map (fun e => e.text) = ["ab", "cd"] ∧
    ¬ (c6_entities.map fun e => e.id).Nodup := by
  have h : c6_entities.map (fun e => e.id) =
      [((1000 : ℕ) : ℚ) + 1/2, ((1000 : ℕ) : ℚ) + 1/2] := rfl
  refine ⟨h, rfl, ?_⟩
  rw [h]
  intro hnd
  exact (List.nodup_cons.mp hnd).1 (List.mem_singleton.mpr rfl)

/-! ## Claim C7 — statistics count actions, not surviving entities -/

/-- The statistics scenario: add by u1, add by u1, add by u2, then u1
removes u1's second entity (id 2). -/
def c7_state : SessionState :=
  session_remove 2 "u1"
    (session_add 3 "ORGANIZATION" ⟨1, "gh", 6⟩ "u2"
      (session_add 2 "PERSON" ⟨1, "cd", 3⟩ "u1"
        (session_add 1 "PERSON" ⟨1, "ab", 0⟩ "u1" ⟨[], []⟩)))

/-- C7: after add(u1), add(u1), add(u2), remove(u1's second entity), the
per-user action counts computed from the history are 3 for u1 and 1 for u2,
while the current entity list has length 2 — historical action counts and
live entity counts are computed from different sources and disagree. -/
theorem C7_statistics_actions_vs_live :
    user_total_actions c7_state.history "u1" = 3 ∧
    user_total_actions c7_state.history "u2" = 1 ∧
    c7_state.entities.length = 2 ∧
    c7_state.history.map (fun h => h.action) =
      ["add", "add", "add", "remove"] := by
  decide

/-! ## Claim C8 — history ordering and its displayed truncation -/

/-- Alice's earlier history row (timestamp 1). -/
def c8_alice : HistoryRow := ⟨"h1", "t1", "create", "user_a", "alice", 1⟩

/-- Bob's later history row (timestamp 2). -/
def c8_bob : HistoryRow := ⟨"h2", "t1", "create", "user_b", "bob", 2⟩

/-- C8 counterexample: the "last 10 actions" display slices the tail of the
in-memory history and keeps its stored (chronological) order, so on a
history ending with bob's most recent action the first displayed entry is
alice's older one — the truncation does not show the most recent entries
first. -/
theorem C8_counterexample_display_order :
    show_last_ten [c8_alice, c8_bob] = [c8_alice, c8_bob] ∧
    (show_last_ten [c8_alice, c8_bob]).head? = some c8_alice ∧
    c8_alice.timestamp < c8_bob.timestamp := by
  decide

/-- C8 amended: `get_annotation_history` returns entries newest-first
(sorted by descending timestamp), restricted to the optional `text_id` and
`user_id` filters — on the alice-then-bob history its first entry is bob's —
while the "last 10 actions" display selects the ten most recent entries but
renders them in chronological order (a suffix of the stored history), not
most-recent-first. -/
theorem C8_amended_history_order :
    (∀ (rows : List HistoryRow) (t u : Option String),
      ((get_annotation_history rows t u).map fun r => r.timestamp).Pairwise
        (fun a b => b ≤ a)) ∧
    (∀ (rows : List HistoryRow) (t u : Option String) (r : HistoryRow),
      r ∈ get_annotation_history rows t u →
      r ∈ rows ∧ (∀ tid, t = some tid → r.text_id = tid) ∧
        (∀ uid, u = some uid → r.user_id = uid)) ∧
    get_annotation_history [c8_alice, c8_bob] none none =
      [c8_bob, c8_alice] ∧
    (∀ l : List HistoryRow, List.IsSuffix (show_last_ten l) l) := by
  refine ⟨?_, ?_, by decide, ?_⟩
  · intro rows t u
    unfold get_annotation_history
    rw [List.pairwise_map]
    refine List.Pairwise.sublist (List.take_sublist _ _) ?_
    exact insertionSort_sorted_ge (fun r : HistoryRow => r.timestamp) _
  · intro rows t u r hr
    unfold get_annotation_history at hr
    have h1 := List.take_subset _ _ hr
    have h2 := (List.perm_insertionSort _ _).mem_iff.mp h1
    have h3 := List.mem_filter.mp h2
    have hb := h3.2
    rw [Bool.and_eq_true] at hb
    refine ⟨h3.1, ?_, ?_⟩
    · intro tid ht
      subst ht
      simpa [beq_iff_eq] using hb.1
    · intro uid hu
      subst hu
      simpa [beq_iff_eq] using hb.2
  · intro l
    exact List.drop_suffix _ _

/-- Witness for C8 (amended): bob's entry survives the `text_id` filter of a
concrete query, is drawn from the queried rows, and matches the filter. -/
theorem C8_witness :
    c8_bob ∈ get_annotation_history [c8_alice, c8_bob] (some "t1") none ∧
    c8_bob ∈ [c8_alice, c8_bob] ∧ c8_bob.text_id = "t1" :=
  ⟨by decide,
   (C8_amended_history_order.2.1 [c8_alice, c8_bob] (some "t1") none c8_bob
      (by decide)).1,
   (C8_amended_history_order.2.1 [c8_alice, c8_bob] (some "t1") none c8_bob
      (by decide)).2.1 "t1" rfl⟩

/-! ## Claim C9 — save outcome and status transition -/

/-- C9: `upload_annotations` returns failure without issuing any status
update when either insert reports errors, and on success (no insert errors)
returns `True` after updating the text's status to `completed`. -/
theorem C9_upload_save_status (text_id : String) (entities : List Entity)
    (uid un : String) (ts : Nat) (ae he : List String) :
    (entities ≠ [] → (ae ≠ [] ∨ he ≠ []) →
      upload_annotations text_id entities uid un ts ae he =
        ⟨false, []⟩) ∧
    (ae = [] → he = [] →
      upload_annotations text_id entities uid un ts ae he =
        ⟨true, [(text_id, "completed")]⟩) := by
  constructor
  · intro hne herr
    unfold upload_annotations
    cases entities with
    | nil => exact absurd rfl hne
    | cons a l =>
      rcases herr with h | h
      · cases ae with
        | nil => exact absurd rfl h
        | cons b m => simp [List.isEmpty]
      · cases he with
        | nil => exact absurd rfl h
        | cons b m =>
          cases ae with
          | nil => simp [List.isEmpty]
          | cons c k => simp [List.isEmpty]
  · intro hae hhe
    subst hae
    subst hhe
    unfold upload_annotations
    simp [List.isEmpty]

/-- An entity to upload in the C9 witness. -/
def c9_ent : Entity := ⟨1, "Tim Cook", "PERSON", 0, 8⟩

/-- Witness for C9: a reported insert error yields failure with no status
update; an error-free save yields success and the `completed` transition. -/
theorem C9_witness :
    upload_annotations "t1" [c9_ent] "u1" "alice" 0 ["insert failed"] [] =
      ⟨false, []⟩ ∧
    upload_annotations "t1" [c9_ent] "u1" "alice" 0 [] [] =
      ⟨true, [("t1", "completed")]⟩ :=
  ⟨(C9_upload_save_status "t1" [c9_ent] "u1" "alice" 0 ["insert failed"] []).1
     (by decide) (Or.inl (by decide)),
   (C9_upload_save_status "t1" [c9_ent] "u1" "alice" 0 [] []).2 rfl rfl⟩

/-! ## Claim C10 — one remove call deletes exactly the matching ids -/

/-- C10: when a remove button click with a parsed id reaches the filter,
the result is a sublist of the original entity list (all other entities
preserved in their original order), and an entity survives exactly when its
id differs from the removed id — so every entity sharing the id is removed
by the single call. -/
theorem C10_remove_filters_exactly
    (t : Triggered) (rest : List Triggered) (ncl : List (Option Nat))
    (entities : List Entity) (eid : ℚ)
    (hidx : t.index = some eid)
    (hval : ¬(t.value = none ∨ t.value = some 0))
    (hany : (ncl.any fun n => n.getD 0 != 0) = true) :
    List.Sublist (remove_entity (t :: rest) ncl entities) entities ∧
    ∀ e, e ∈ remove_entity (t :: rest) ncl entities ↔
      e ∈ entities ∧ e.id ≠ eid := by
  rw [remove_entity_filter t rest ncl entities eid hidx hval hany]
  refine ⟨List.filter_sublist entities, fun e => ?_⟩
  rw [List.mem_filter]
  simp [bne_iff_ne]

/-- First entity sharing the removed id 7. -/
def c10_e1 : Entity := ⟨7, "a", "PERSON", 0, 1⟩

/-- The entity with a different id (1), which must survive. -/
def c10_e2 : Entity := ⟨1, "b", "LOCATION", 1, 2⟩

/-- Second entity sharing the removed id 7. -/
def c10_e3 : Entity := ⟨7, "c", "PERSON", 2, 3⟩

/-- Witness for C10: removing id 7 from a list with two entities of id 7
around one of id 1 keeps exactly the id-1 entity, in order. -/
theorem C10_witness :
    (⟨some 2, some 7⟩ : Triggered).index = some 7 ∧
    ¬((⟨some 2, some 7⟩ : Triggered).value = none ∨
      (⟨some 2, some 7⟩ : Triggered).value = some 0) ∧
    (([none, some 3] : List (Option Nat)).any fun n => n.getD 0 != 0)
      = true ∧
    List.Sublist
      (remove_entity [⟨some 2, some 7⟩] [none, some 3]
        [c10_e1, c10_e2, c10_e3])
      [c10_e1, c10_e2, c10_e3] ∧
    (c10_e2 ∈ remove_entity [⟨some 2, some 7⟩] [none, some 3]
        [c10_e1, c10_e2, c10_e3] ↔
      c10_e2 ∈ [c10_e1, c10_e2, c10_e3] ∧ c10_e2.id ≠ 7) ∧
    remove_entity [⟨some 2, some 7⟩] [none, some 3]
      [c10_e1, c10_e2, c10_e3] = [c10_e2] :=
  ⟨rfl, by decide, by decide,
   (C10_remove_filters_exactly ⟨some 2, some 7⟩ [] [none, some 3]
      [c10_e1, c10_e2, c10_e3] 7 rfl (by decide) (by decide)).1,
   (C10_remove_filters_exactly ⟨some 2, some 7⟩ [] [none, some 3]
      [c10_e1, c10_e2, c10_e3] 7 rfl (by decide) (by decide)).2 c10_e2,
   by decide⟩
